import Mathlib

/-!
Shallow embedding of the two batch-enrichment pipelines of this repository:

* `fetch_hourly_weather.py` — `main`: filter already-processed cities out of
  the input table, fetch an hourly weather series per remaining city,
  sleep between requests, and merge the accumulated rows with the existing
  output file on both the exception exit and the normal (for-else) exit.

* `russian_cities_with_coords.py` — `get_coordinates` (cached geocoding with
  recursion on timeout) and the geocoding portion of
  `fetch_and_geocode_russian_cities` (geocode every recognized city, write
  the resulting table to the output path, write the cache file).

External services are modelled as oracles: the weather archive as a function
from (latitude, longitude, start, end) to an optional list of hourly points
(`none` models the client raising an exception), the geocoder as a function
from (query, global call index) to a response that may be a timeout.
-/

set_option linter.unusedVariables false

/-- One row of the input CSV of `fetch_hourly_weather.py`
(`cities_with_coordinates.csv`): mandatory columns `city`, `latitude`,
`longitude`.  Coordinates are opaque payload for the pipeline logic, so they
are embedded as integers. -/
structure SourceRow where
  city : String
  latitude : Int
  longitude : Int
  deriving Repr, DecidableEq

/-- One time step of the archive response: `hourly.Time()`-derived date plus
the nine requested variables, as produced inside the per-city loop of `main`. -/
structure HourlyPoint where
  date : Nat
  temperature_2m : Int
  relative_humidity_2m : Int
  rain : Int
  snowfall : Int
  snow_depth : Int
  is_day : Int
  precipitation : Int
  wind_direction_100m : Int
  wind_speed_100m : Int
  deriving Repr, DecidableEq

/-- One row of the output CSV (`hourly_weather.csv`): the `hourly_data`
dictionary of `main` turned into a `DataFrame` row, with the city name
attached to every time step. -/
structure WeatherRow where
  date : Nat
  city : String
  temperature_2m : Int
  relative_humidity_2m : Int
  rain : Int
  snowfall : Int
  snow_depth : Int
  is_day : Int
  precipitation : Int
  wind_direction_100m : Int
  wind_speed_100m : Int
  deriving Repr, DecidableEq

/-- The weather-archive client: `openmeteo.weather_api` at
(latitude, longitude, start_date, end_date).  `some pts` models a successful
response; `none` models any exception raised by the call. -/
abbrev WeatherOracle := Int → Int → String → String → Option (List HourlyPoint)

/-- Building the per-city `DataFrame` in `main`: every hourly point becomes an
output row carrying `row["city"]`. -/
def toRows (city : String) (pts : List HourlyPoint) : List WeatherRow :=
  pts.map fun p =>
    { date := p.date
      city := city
      temperature_2m := p.temperature_2m
      relative_humidity_2m := p.relative_humidity_2m
      rain := p.rain
      snowfall := p.snowfall
      snow_depth := p.snow_depth
      is_day := p.is_day
      precipitation := p.precipitation
      wind_direction_100m := p.wind_direction_100m
      wind_speed_100m := p.wind_speed_100m }

/-- `processed_cities` in `main`: the set of values of the `city` column of the
existing output file, or empty when the file does not exist (`file = none`).
Membership in this list is what `set(existing_df["city"].unique())` decides. -/
def processedCities (file : Option (List WeatherRow)) : List String :=
  match file with
  | none => []
  | some rows => rows.map (·.city)

/-- The row-keeping predicate of `data[~data["city"].isin(processed_cities)]`. -/
def keepRow (file : Option (List WeatherRow)) (r : SourceRow) : Bool :=
  ! decide (r.city ∈ processedCities file)

/-- The filtered work list: `data` after dropping rows whose `city` is already
present in the existing output. -/
def filterProcessed (file : Option (List WeatherRow)) (src : List SourceRow) :
    List SourceRow :=
  src.filter (keepRow file)

/-- What the per-city `for` loop of `main` produces: the `all_results` list of
per-city row blocks, whether the loop exited through the `except` branch
(`aborted`), how many `time.sleep(delay)` calls ran, and the cities for which
a lookup was attempted, in order. -/
structure LoopOutcome where
  results : List (List WeatherRow)
  aborted : Bool
  sleeps : Nat
  attempted : List String
  deriving Repr, DecidableEq

/-- The per-city `for` loop of `main` over the filtered rows: on a successful
archive call the city's rows are appended to `all_results` and
`time.sleep(delay)` runs (also after the last item); on an exception the loop
breaks at once, with no sleep and no further item attempted. -/
def processLoop (oracle : WeatherOracle) (startDate endDate : String) :
    List SourceRow → LoopOutcome
  | [] => { results := [], aborted := false, sleeps := 0, attempted := [] }
  | r :: rest =>
    match oracle r.latitude r.longitude startDate endDate with
    | some pts =>
      let out := processLoop oracle startDate endDate rest
      { results := toRows r.city pts :: out.results
        aborted := out.aborted
        sleeps := out.sleeps + 1
        attempted := r.city :: out.attempted }
    | none =>
      { results := [], aborted := true, sleeps := 0, attempted := [r.city] }

/-- The save block inside the `except` branch of `main` (lines 125–136):
if `all_results` is nonempty, concatenate the blocks, prepend the existing
file's rows when the file exists, and write the result back; otherwise leave
the file untouched.  Returns the file state after the block and whether
`to_csv` ran. -/
def saveOnError (file : Option (List WeatherRow))
    (allResults : List (List WeatherRow)) : Option (List WeatherRow) × Bool :=
  if allResults.isEmpty then (file, false)
  else
    let newDf := allResults.flatten
    match file with
    | some existing => (some (existing ++ newDf), true)
    | none => (some newDf, true)

/-- The save block in the `for`-`else` branch of `main` (lines 140–150): the
same merge-and-write applied when the loop exhausts the work list normally. -/
def saveOnElse (file : Option (List WeatherRow))
    (allResults : List (List WeatherRow)) : Option (List WeatherRow) × Bool :=
  if allResults.isEmpty then (file, false)
  else
    let newDf := allResults.flatten
    match file with
    | some existing => (some (existing ++ newDf), true)
    | none => (some newDf, true)

/-- The observable outcome of one invocation of `main`. -/
structure RunResult where
  fileAfter : Option (List WeatherRow)
  wrote : Bool
  aborted : Bool
  sleeps : Nat
  attempted : List String
  deriving Repr, DecidableEq

/-- `main` of `fetch_hourly_weather.py` as a function of the archive oracle,
the date range, the input table and the state of the output file:
filter the already-processed cities, run the per-city loop, and execute the
exception-path save or the for-else save according to how the loop exited. -/
def runWeather (oracle : WeatherOracle) (startDate endDate : String)
    (src : List SourceRow) (file : Option (List WeatherRow)) : RunResult :=
  let remaining := filterProcessed file src
  let out := processLoop oracle startDate endDate remaining
  let saved :=
    if out.aborted then saveOnError file out.results
    else saveOnElse file out.results
  { fileAfter := saved.1
    wrote := saved.2
    aborted := out.aborted
    sleeps := out.sleeps
    attempted := out.attempted }

/-- A response of the Nominatim geocoder to one `geolocator.geocode` call:
a `GeocoderTimedOut` exception, a location, or `None`. -/
inductive GeoResp where
  | timeout : GeoResp
  | found : Int → Int → GeoResp
  | notFound : GeoResp
  deriving Repr, DecidableEq

/-- The value stored in `geo_cache.json` under one key: a pair of nullable
coordinates — `(latitude, longitude)` on success, `(None, None)` when the
geocoder returned nothing. -/
abbrev Coords := Option Int × Option Int

/-- The in-memory `cache` dictionary: an association list from
`f"{city}, {region}"` keys to coordinate pairs. -/
abbrev Cache := List (String × Coords)

/-- `key in cache` / `cache[key]`: the value stored under `k`, if any. -/
def cacheFind (c : Cache) (k : String) : Option Coords :=
  (c.find? fun p => p.1 == k).map (·.2)

/-- The mutable state threaded through the geocoding loop: the `cache`
dictionary plus the number of `geolocator.geocode` invocations made so far
(the oracle is indexed by this global call counter). -/
structure GeoState where
  cache : Cache
  calls : Nat
  deriving Repr, DecidableEq

/-- The geocoder as an oracle: the response to the `n`-th external
`geolocator.geocode` call for a given query string. -/
abbrev GeoOracle := String → Nat → GeoResp

/-- `get_coordinates(city, region)` of `russian_cities_with_coords.py`,
with explicit state and step-indexed fuel: return the cached value when the
key is present; otherwise call the geocoder — on `GeocoderTimedOut`, sleep
and recurse with the cache unchanged; otherwise store the coordinate pair
(including `(None, None)`) under the key and return it.  The result is `none`
exactly when the recursion has not produced a value within `fuel` calls. -/
def get_coordinates (oracle : GeoOracle) (fuel : Nat) (st : GeoState)
    (city region : String) : Option (Coords × GeoState) :=
  match fuel with
  | 0 => none
  | fuel + 1 =>
    let key := city ++ ", " ++ region
    match cacheFind st.cache key with
    | some v => some (v, st)
    | none =>
      match oracle (city ++ ", " ++ region ++ ", Russia") st.calls with
      | GeoResp.timeout =>
        get_coordinates oracle fuel { st with calls := st.calls + 1 } city region
      | GeoResp.found lat lon =>
        let coords : Coords := (some lat, some lon)
        some (coords, { cache := (key, coords) :: st.cache, calls := st.calls + 1 })
      | GeoResp.notFound =>
        let coords : Coords := (none, none)
        some (coords, { cache := (key, coords) :: st.cache, calls := st.calls + 1 })

/-- One row of `russian_cities.csv`, the recognized-city table the geocoding
step reads back before applying `fill_missing_coords`. -/
structure GeoRow where
  city : String
  region : String
  population : Nat
  deriving Repr, DecidableEq

/-- One row of `cities_with_coordinates.csv`: the source row extended with the
nullable `latitude` and `longitude` columns. -/
structure CoordRow where
  city : String
  region : String
  population : Nat
  latitude : Option Int
  longitude : Option Int
  deriving Repr, DecidableEq

/-- `df.progress_apply(fill_missing_coords, axis=1)`: geocode the rows in
order, threading the cache and call counter; `none` when some row's
`get_coordinates` never returns within the fuel bound. -/
def geocodeAll (oracle : GeoOracle) (fuel : Nat) :
    List GeoRow → GeoState → Option (List CoordRow × GeoState)
  | [], st => some ([], st)
  | r :: rest, st =>
    match get_coordinates oracle fuel st r.city r.region with
    | none => none
    | some (coords, st') =>
      match geocodeAll oracle fuel rest st' with
      | none => none
      | some (rows, st'') =>
        some ({ city := r.city, region := r.region, population := r.population,
                latitude := coords.1, longitude := coords.2 } :: rows, st'')

/-- The geocode-and-persist step of `fetch_and_geocode_russian_cities`
(lines 119–129): read the recognized cities, geocode each row, then
`df.to_csv(output_path)` — writing the freshly built table over whatever the
output path held before (`prevOutput` is not read) — and dump the cache file.
Returns `(output file content, cache file content)`. -/
def geocodeRun (oracle : GeoOracle) (fuel : Nat) (src : List GeoRow)
    (cacheFile : Cache) (prevOutput : Option (List CoordRow)) :
    Option (List CoordRow × Cache) :=
  match geocodeAll oracle fuel src { cache := cacheFile, calls := 0 } with
  | none => none
  | some (rows, st) => some (rows, st.cache)

/-- A concrete hourly point, used to instantiate the theorems below. -/
def pt0 : HourlyPoint := ⟨0, 0, 0, 0, 0, 0, 0, 0, 0, 0⟩

/-- A weather-archive oracle whose every call raises. -/
def failOracle : WeatherOracle := fun _ _ _ _ => none

/-- A weather-archive oracle whose every call succeeds with one point. -/
def okOracle : WeatherOracle := fun _ _ _ _ => some [pt0]

/-- A weather-archive oracle that succeeds at latitude 1 and raises
elsewhere. -/
def abcOracle : WeatherOracle :=
  fun la _ _ _ => if la = 1 then some [pt0] else none

/-- A geocoder that times out on every call. -/
def alwaysTimeout : GeoOracle := fun _ _ => GeoResp.timeout

/-- A geocoder that returns no location, on every call. -/
def notFoundOracle : GeoOracle := fun _ _ => GeoResp.notFound

/-- A geocoder whose first call times out and whose later calls return a
location. -/
def oneTimeoutThenFound : GeoOracle :=
  fun _ n => if n = 0 then GeoResp.timeout else GeoResp.found 55 37

/-! ### Helper lemmas -/

/-- Every row built by `toRows c pts` carries city `c`. -/
theorem toRows_city {c : String} {pts : List HourlyPoint} {r : WeatherRow}
    (h : r ∈ toRows c pts) : r.city = c := by
  simp only [toRows, List.mem_map] at h
  obtain ⟨p, -, rfl⟩ := h
  rfl

/-- The city column of a `toRows` block is the constant list. -/
theorem toRows_map_city (c : String) (pts : List HourlyPoint) :
    (toRows c pts).map (·.city) = pts.map fun _ => c := by
  simp only [toRows, List.map_map]
  rfl

/-- The two save blocks of `main` are the same code. -/
theorem saveOnElse_eq_saveOnError (file : Option (List WeatherRow))
    (res : List (List WeatherRow)) : saveOnElse file res = saveOnError file res :=
  rfl

/-- The save block on an existing output file always yields the existing rows
followed by the flattened accumulator. -/
theorem save_fst_some (old : List WeatherRow) (res : List (List WeatherRow)) :
    (saveOnError (some old) res).1 = some (old ++ res.flatten) := by
  cases res with
  | nil => simp [saveOnError]
  | cons a l => simp [saveOnError]

/-- The save block on a nonempty accumulator writes the merged table,
whether or not the output file existed. -/
theorem save_fst (file : Option (List WeatherRow)) (res : List (List WeatherRow))
    (h : res ≠ []) :
    (saveOnError file res).1 = some (file.getD [] ++ res.flatten) := by
  cases res with
  | nil => exact absurd rfl h
  | cons a l => cases file <;> simp [saveOnError]

/-- A run whose every source city is already in the output leaves the run
state trivial: nothing filtered in, nothing written. -/
theorem runWeather_no_new (oracle : WeatherOracle) (s e : String)
    (src : List SourceRow) (file : Option (List WeatherRow))
    (h : ∀ r ∈ src, r.city ∈ processedCities file) :
    runWeather oracle s e src file =
      { fileAfter := file, wrote := false, aborted := false,
        sleeps := 0, attempted := [] } := by
  have hf : filterProcessed file src = [] := by
    simp only [filterProcessed, List.filter_eq_nil_iff]
    intro r hr
    simp [keepRow, h r hr]
  simp [runWeather, hf, processLoop, saveOnElse]

/-- Looking up a key just stored finds the stored value. -/
theorem cacheFind_cons_self (c : Cache) (k : String) (v : Coords) :
    cacheFind ((k, v) :: c) k = some v := by
  unfold cacheFind
  rw [List.find?_cons_of_pos _ (by simp)]
  rfl

/-! ### Claims -/

/-- C1 (amended): every run of the weather pipeline, whether it ends through
the for-else save or through the caught-exception save, leaves the previously
persisted rows as a prefix of the output file — the weather output table is
append-only across runs. -/
theorem weather_append_only (oracle : WeatherOracle) (s e : String)
    (src : List SourceRow) (old : List WeatherRow) :
    ∃ ext, (runWeather oracle s e src (some old)).fileAfter = some (old ++ ext) := by
  refine ⟨(processLoop oracle s e (filterProcessed (some old) src)).results.flatten, ?_⟩
  unfold runWeather
  cases hb : (processLoop oracle s e (filterProcessed (some old) src)).aborted <;>
    simp [hb, saveOnElse_eq_saveOnError, save_fst_some]

/-- C1 (counterexample): the geocoding pipeline is not append-only — a
successful geocoding run replaces the output file with the freshly geocoded
source table, so a row present in the output beforehand and absent from the
current source list is dropped. -/
theorem geocodeRun_drops_row :
    geocodeRun notFoundOracle 1 [⟨"N", "S", 2⟩] []
        (some [⟨"M", "R", 1, some 55, some 37⟩])
      = some ([⟨"N", "S", 2, none, none⟩], [("N, S", (none, none))]) ∧
    (⟨"M", "R", 1, some 55, some 37⟩ : CoordRow) ∉
      ([⟨"N", "S", 2, none, none⟩] : List CoordRow) := by
  constructor
  · rfl
  · decide

/-- C3 (code bug): `get_coordinates` retries on `GeocoderTimedOut` by
unbounded recursion — against a geocoder that times out on every call, no
number of external calls ever produces a result or an escalated failure, so
the retry process neither is bounded nor terminates. -/
theorem geo_timeout_retry_unbounded (fuel calls : Nat) :
    get_coordinates alwaysTimeout fuel { cache := [], calls := calls } "X" "Y"
      = none := by
  induction fuel generalizing calls with
  | zero => rfl
  | succ n ih => simpa [get_coordinates, cacheFind, alwaysTimeout] using ih (calls + 1)

/-- C5 (amended): in the per-city loop of the weather pipeline,
`time.sleep(delay)` runs exactly once per successful lookup — including after
the final item of the run — and never after the lookup failure that aborts
the run. -/
theorem weather_sleeps_eq_successes (oracle : WeatherOracle) (s e : String)
    (l : List SourceRow) :
    (processLoop oracle s e l).sleeps = (processLoop oracle s e l).results.length := by
  induction l with
  | nil => rfl
  | cons r rest ih =>
    cases h : oracle r.latitude r.longitude s e <;> simp [processLoop, h, ih]

/-- C5 (counterexample): a run whose single item succeeds sleeps once — the
delay is applied after the final item of the run, contradicting the claim
that no delay occurs there. -/
theorem weather_sleeps_final_item_cex :
    (runWeather okOracle "a" "b" [⟨"A", 1, 2⟩] none).sleeps = 1 ∧
    (runWeather okOracle "a" "b" [⟨"A", 1, 2⟩] none).sleeps ≠ 0 := by decide

/-- C6: when a run of the weather pipeline accumulates no successful result,
neither save block writes: the output file is exactly as before the run —
not created, not modified. -/
theorem weather_empty_accumulator (oracle : WeatherOracle) (s e : String)
    (src : List SourceRow) (file : Option (List WeatherRow))
    (h : (processLoop oracle s e (filterProcessed file src)).results = []) :
    (runWeather oracle s e src file).fileAfter = file ∧
    (runWeather oracle s e src file).wrote = false := by
  unfold runWeather
  cases hb : (processLoop oracle s e (filterProcessed file src)).aborted <;>
    simp [hb, h, saveOnElse, saveOnError]

/-- C6 (witness): one city, whose lookup fails at once: no file is created. -/
theorem weather_empty_accumulator_witness :
    (runWeather failOracle "a" "b" [⟨"A", 1, 2⟩] none).fileAfter = none ∧
    (runWeather failOracle "a" "b" [⟨"A", 1, 2⟩] none).wrote = false :=
  weather_empty_accumulator failOracle "a" "b" [⟨"A", 1, 2⟩] none (by decide)

/-- C7: the save block in the `except` branch and the save block in the
`for`-`else` branch are the same transformation of the existing output file
and the accumulated results — both exit paths produce an identical final
output file on identical inputs. -/
theorem weather_save_paths_agree (file : Option (List WeatherRow))
    (allResults : List (List WeatherRow)) :
    saveOnError file allResults = saveOnElse file allResults :=
  rfl

/-- C10: the processed-set filter keys solely on the `city` column — the
keep/skip decision is unchanged under any latitude/longitude values (the
requested date range is not consulted at all: it is no argument of the
filter), and a row is skipped exactly when its city name occurs in the
existing output file. -/
theorem weather_filter_city_only (file : Option (List WeatherRow))
    (r : SourceRow) (la lo : Int) :
    keepRow file { city := r.city, latitude := la, longitude := lo }
        = keepRow file r ∧
    (keepRow file r = false ↔ r.city ∈ processedCities file) := by
  refine ⟨rfl, ?_⟩
  simp [keepRow]

/-- C8: a second weather run over a source list whose every city is already
present in the output file written by the first run leaves that file exactly
as it was — the filter excludes everything and no write occurs. -/
theorem weather_idempotent (oracle oracle2 : WeatherOracle) (s e : String)
    (src : List SourceRow) (file0 : Option (List WeatherRow))
    (h : ∀ r ∈ src,
        r.city ∈ processedCities (runWeather oracle s e src file0).fileAfter) :
    (runWeather oracle2 s e src
        (runWeather oracle s e src file0).fileAfter).fileAfter
      = (runWeather oracle s e src file0).fileAfter ∧
    (runWeather oracle2 s e src
        (runWeather oracle s e src file0).fileAfter).wrote = false := by
  rw [runWeather_no_new oracle2 s e src _ h]
  exact ⟨rfl, rfl⟩

/-- C8 (witness): one city fetched by the first run is filtered out by the
second, which leaves the file untouched. -/
theorem weather_idempotent_witness :
    (runWeather okOracle "a" "b" [⟨"A", 1, 2⟩]
        (runWeather okOracle "a" "b" [⟨"A", 1, 2⟩] none).fileAfter).fileAfter
      = (runWeather okOracle "a" "b" [⟨"A", 1, 2⟩] none).fileAfter ∧
    (runWeather okOracle "a" "b" [⟨"A", 1, 2⟩]
        (runWeather okOracle "a" "b" [⟨"A", 1, 2⟩] none).fileAfter).wrote
      = false :=
  weather_idempotent okOracle okOracle "a" "b" [⟨"A", 1, 2⟩] none (by decide)

/-- C9: merging is split-invariant — starting from the same output file,
processing B and C in one run produces the same final output file as
processing B in one run and C in a following run. -/
theorem weather_merge_split (oracle : WeatherOracle) (s e : String)
    (B C : SourceRow) (file : Option (List WeatherRow))
    (ptsB ptsC : List HourlyPoint)
    (hB : B.city ∉ processedCities file)
    (hC : C.city ∉ processedCities file)
    (hBC : C.city ≠ B.city)
    (hOB : oracle B.latitude B.longitude s e = some ptsB)
    (hOC : oracle C.latitude C.longitude s e = some ptsC) :
    (runWeather oracle s e [C] (runWeather oracle s e [B] file).fileAfter).fileAfter
      = (runWeather oracle s e [B, C] file).fileAfter := by
  have hfB : filterProcessed file [B] = [B] := by
    simp [filterProcessed, keepRow, hB]
  have hloopB : processLoop oracle s e [B] =
      { results := [toRows B.city ptsB], aborted := false, sleeps := 1,
        attempted := [B.city] } := by
    simp [processLoop, hOB]
  have hrun1 : (runWeather oracle s e [B] file).fileAfter
      = some (file.getD [] ++ toRows B.city ptsB) := by
    have := save_fst file [toRows B.city ptsB] (by simp)
    simp only [runWeather, hfB, hloopB, saveOnElse_eq_saveOnError]
    simpa using this
  have hCnot : C.city ∉
      processedCities (some (file.getD [] ++ toRows B.city ptsB)) := by
    simp only [processedCities, List.mem_map]
    rintro ⟨r, hr, hrc⟩
    rcases List.mem_append.mp hr with h1 | h2
    · apply hC
      cases file with
      | none => simp at h1
      | some old =>
        simp only [processedCities, List.mem_map]
        exact ⟨r, h1, hrc⟩
    · exact hBC (hrc.symm.trans (toRows_city h2))
  have hfC : filterProcessed (some (file.getD [] ++ toRows B.city ptsB)) [C]
      = [C] := by
    simp [filterProcessed, keepRow, hCnot]
  have hloopC : processLoop oracle s e [C] =
      { results := [toRows C.city ptsC], aborted := false, sleeps := 1,
        attempted := [C.city] } := by
    simp [processLoop, hOC]
  have hrun2 : (runWeather oracle s e [C]
        (some (file.getD [] ++ toRows B.city ptsB))).fileAfter
      = some ((file.getD [] ++ toRows B.city ptsB) ++ toRows C.city ptsC) := by
    have := save_fst (some (file.getD [] ++ toRows B.city ptsB))
      [toRows C.city ptsC] (by simp)
    simp only [runWeather, hfC, hloopC, saveOnElse_eq_saveOnError]
    simpa using this
  have hfBC : filterProcessed file [B, C] = [B, C] := by
    simp [filterProcessed, keepRow, hB, hC]
  have hloopBC : processLoop oracle s e [B, C] =
      { results := [toRows B.city ptsB, toRows C.city ptsC], aborted := false,
        sleeps := 2, attempted := [B.city, C.city] } := by
    simp [processLoop, hOB, hOC]
  have hrunBC : (runWeather oracle s e [B, C] file).fileAfter
      = some (file.getD [] ++ (toRows B.city ptsB ++ toRows C.city ptsC)) := by
    have := save_fst file [toRows B.city ptsB, toRows C.city ptsC] (by simp)
    simp only [runWeather, hfBC, hloopBC, saveOnElse_eq_saveOnError]
    simpa using this
  rw [hrun1, hrun2, hrunBC, List.append_assoc]

/-- C9 (witness): two fresh cities, both succeeding, split across runs. -/
theorem weather_merge_split_witness :
    (runWeather okOracle "a" "b" [⟨"C", 3, 3⟩]
        (runWeather okOracle "a" "b" [⟨"B", 2, 2⟩] none).fileAfter).fileAfter
      = (runWeather okOracle "a" "b" [⟨"B", 2, 2⟩, ⟨"C", 3, 3⟩] none).fileAfter :=
  weather_merge_split okOracle "a" "b" ⟨"B", 2, 2⟩ ⟨"C", 3, 3⟩ none [pt0] [pt0]
    (by decide) (by decide) (by decide) (by decide) (by decide)

/-- C2: with a source list A, B, C none of whose cities is already processed,
where A's lookup succeeds (with a nonempty series) and B's lookup raises:
the run attempts A then B only, the post-run file holds the previous rows
followed by A's rows and contains no row for B's or C's city, a subsequent
run over the same input filters out exactly A, and — when B's lookup now
succeeds — that run attempts exactly B and C. -/
theorem weather_flush_on_failure
    (oracle oracle2 : WeatherOracle) (s e : String)
    (A B C : SourceRow) (file : Option (List WeatherRow))
    (ptsA ptsB2 : List HourlyPoint)
    (hA : A.city ∉ processedCities file)
    (hB : B.city ∉ processedCities file)
    (hC : C.city ∉ processedCities file)
    (hAB : A.city ≠ B.city) (hAC : A.city ≠ C.city)
    (hOA : oracle A.latitude A.longitude s e = some ptsA)
    (hOB : oracle B.latitude B.longitude s e = none)
    (hne : ptsA ≠ [])
    (hO2B : oracle2 B.latitude B.longitude s e = some ptsB2) :
    (runWeather oracle s e [A, B, C] file).attempted = [A.city, B.city] ∧
    (runWeather oracle s e [A, B, C] file).fileAfter
      = some (file.getD [] ++ toRows A.city ptsA) ∧
    (∀ r ∈ file.getD [] ++ toRows A.city ptsA,
        r.city ≠ B.city ∧ r.city ≠ C.city) ∧
    filterProcessed (runWeather oracle s e [A, B, C] file).fileAfter [A, B, C]
      = [B, C] ∧
    (runWeather oracle2 s e [A, B, C]
        (runWeather oracle s e [A, B, C] file).fileAfter).attempted
      = [B.city, C.city] := by
  have hfilter : filterProcessed file [A, B, C] = [A, B, C] := by
    simp [filterProcessed, keepRow, hA, hB, hC]
  have hloop : processLoop oracle s e [A, B, C] =
      { results := [toRows A.city ptsA], aborted := true, sleeps := 1,
        attempted := [A.city, B.city] } := by
    simp [processLoop, hOA, hOB]
  have hfile1 : (runWeather oracle s e [A, B, C] file).fileAfter
      = some (file.getD [] ++ toRows A.city ptsA) := by
    have := save_fst file [toRows A.city ptsA] (by simp)
    simp only [runWeather, hfilter, hloop]
    simpa using this
  have hattempted1 : (runWeather oracle s e [A, B, C] file).attempted
      = [A.city, B.city] := by
    simp [runWeather, hfilter, hloop]
  have hmemF : ∀ r ∈ file.getD [] ++ toRows A.city ptsA,
      r.city ≠ B.city ∧ r.city ≠ C.city := by
    intro r hr
    rcases List.mem_append.mp hr with h1 | h2
    · have hrp : r.city ∈ processedCities file := by
        cases file with
        | none => simp at h1
        | some old => exact List.mem_map.mpr ⟨r, h1, rfl⟩
      exact ⟨fun hh => hB (hh ▸ hrp), fun hh => hC (hh ▸ hrp)⟩
    · have hrc := toRows_city h2
      exact ⟨by rw [hrc]; exact hAB, by rw [hrc]; exact hAC⟩
  have hAin : A.city ∈
      processedCities (some (file.getD [] ++ toRows A.city ptsA)) := by
    simp only [processedCities, List.map_append, List.mem_append]
    refine Or.inr ?_
    rw [toRows_map_city]
    rcases List.exists_mem_of_ne_nil ptsA hne with ⟨p, hp⟩
    exact List.mem_map.mpr ⟨p, hp, rfl⟩
  have hBout : B.city ∉
      processedCities (some (file.getD [] ++ toRows A.city ptsA)) := by
    simp only [processedCities, List.mem_map]
    rintro ⟨r, hr, hrc⟩
    exact (hmemF r hr).1 hrc
  have hCout : C.city ∉
      processedCities (some (file.getD [] ++ toRows A.city ptsA)) := by
    simp only [processedCities, List.mem_map]
    rintro ⟨r, hr, hrc⟩
    exact (hmemF r hr).2 hrc
  have hfilter2 : filterProcessed
      (some (file.getD [] ++ toRows A.city ptsA)) [A, B, C] = [B, C] := by
    simp [filterProcessed, keepRow, hAin, hBout, hCout]
  have hatt2 : (processLoop oracle2 s e [B, C]).attempted = [B.city, C.city] := by
    cases h2C : oracle2 C.latitude C.longitude s e <;>
      simp [processLoop, hO2B, h2C]
  have hrun2att : (runWeather oracle2 s e [A, B, C]
      (runWeather oracle s e [A, B, C] file).fileAfter).attempted
        = [B.city, C.city] := by
    rw [hfile1]
    simp [runWeather, hfilter2, hatt2]
  exact ⟨hattempted1, hfile1, hmemF, by rw [hfile1]; exact hfilter2, hrun2att⟩

/-- C2 (witness): cities A, B, C at latitudes 1, 2, 3 against an archive that
succeeds only at latitude 1, then a second run against an archive that always
succeeds. -/
theorem weather_flush_on_failure_witness :
    (runWeather abcOracle "a" "b"
        [⟨"A", 1, 1⟩, ⟨"B", 2, 2⟩, ⟨"C", 3, 3⟩] none).attempted = ["A", "B"] ∧
    (runWeather okOracle "a" "b" [⟨"A", 1, 1⟩, ⟨"B", 2, 2⟩, ⟨"C", 3, 3⟩]
        (runWeather abcOracle "a" "b"
          [⟨"A", 1, 1⟩, ⟨"B", 2, 2⟩, ⟨"C", 3, 3⟩] none).fileAfter).attempted
      = ["B", "C"] :=
  have h := weather_flush_on_failure abcOracle okOracle "a" "b"
    ⟨"A", 1, 1⟩ ⟨"B", 2, 2⟩ ⟨"C", 3, 3⟩ none [pt0] [pt0]
    (by decide) (by decide) (by decide) (by decide) (by decide)
    (by decide) (by decide) (by decide) (by decide)
  ⟨h.1, h.2.2.2.2⟩

/-- C4 (amended): for a geocoder none of whose responses is a timeout, a
`get_coordinates` call returns a value while making at most one external
call; on a cache hit the cached value is returned with no external call and
no state change; on a cache miss exactly one external call is made, the
result — `(none, none)` when the geocoder found nothing — is stored under the
key, and a repeated call returns the same value with no further external
call. -/
theorem geo_cache_reuse (oracle : GeoOracle)
    (hto : ∀ q n, oracle q n ≠ GeoResp.timeout)
    (n : Nat) (st : GeoState) (city region : String) :
    ∃ v st₂,
      get_coordinates oracle (n + 1) st city region = some (v, st₂) ∧
      st₂.calls ≤ st.calls + 1 ∧
      (cacheFind st.cache (city ++ ", " ++ region) = some v → st₂ = st) ∧
      (cacheFind st.cache (city ++ ", " ++ region) = none →
        st₂.calls = st.calls + 1 ∧
        cacheFind st₂.cache (city ++ ", " ++ region) = some v ∧
        (oracle (city ++ ", " ++ region ++ ", Russia") st.calls = GeoResp.notFound
          → v = (none, none))) ∧
      get_coordinates oracle (n + 1) st₂ city region = some (v, st₂) := by
  cases hc : cacheFind st.cache (city ++ ", " ++ region) with
  | some v =>
    refine ⟨v, st, ?_, Nat.le_succ _, fun _ => rfl, ?_, ?_⟩
    · simp [get_coordinates, hc]
    · intro h
      simp at h
    · simp [get_coordinates, hc]
  | none =>
    cases ho : oracle (city ++ ", " ++ region ++ ", Russia") st.calls with
    | timeout => exact absurd ho (hto _ _)
    | found lat lon =>
      refine ⟨(some lat, some lon),
        { cache := (city ++ ", " ++ region, (some lat, some lon)) :: st.cache,
          calls := st.calls + 1 }, ?_, Nat.le_refl _, ?_, ?_, ?_⟩
      · simp [get_coordinates, hc, ho]
      · intro h
        simp at h
      · intro _
        refine ⟨rfl, cacheFind_cons_self _ _ _, ?_⟩
        intro h
        simp at h
      · simp [get_coordinates, cacheFind_cons_self]
    | notFound =>
      refine ⟨(none, none),
        { cache := (city ++ ", " ++ region, ((none : Option Int), (none : Option Int))) :: st.cache,
          calls := st.calls + 1 }, ?_, Nat.le_refl _, ?_, ?_, ?_⟩
      · simp [get_coordinates, hc, ho]
      · intro h
        simp at h
      · exact fun _ => ⟨rfl, cacheFind_cons_self _ _ _, fun _ => rfl⟩
      · simp [get_coordinates, cacheFind_cons_self]

/-- C4 (counterexample): when the first geocoder response is a timeout, a
single `get_coordinates` call already invokes the external geocoder twice
(the call counter goes from 0 to 2), and a second call for the same key still
leaves the total at two — so calling the lookup twice does not invoke the
external geocoding function at most once. -/
theorem geo_cache_reuse_cex :
    get_coordinates oneTimeoutThenFound 3 { cache := [], calls := 0 } "A" "B"
      = some ((some 55, some 37),
          { cache := [("A, B", (some 55, some 37))], calls := 2 }) ∧
    get_coordinates oneTimeoutThenFound 3
        { cache := [("A, B", (some 55, some 37))], calls := 2 } "A" "B"
      = some ((some 55, some 37),
          { cache := [("A, B", (some 55, some 37))], calls := 2 }) ∧
    ¬ (2 : Nat) ≤ 1 := by
  refine ⟨by decide, by decide, by decide⟩

/-- C4 (witness): a geocoder that always answers "not found", an empty cache:
the first call stores `(none, none)` with one external call, the second call
reuses it. -/
theorem geo_cache_reuse_witness :
    ∃ v st₂,
      get_coordinates notFoundOracle (0 + 1) { cache := [], calls := 0 } "A" "B"
        = some (v, st₂) ∧
      st₂.calls ≤ (({ cache := [], calls := 0 } : GeoState)).calls + 1 ∧
      (cacheFind ({ cache := [], calls := 0 } : GeoState).cache ("A" ++ ", " ++ "B")
          = some v → st₂ = { cache := [], calls := 0 }) ∧
      (cacheFind ({ cache := [], calls := 0 } : GeoState).cache ("A" ++ ", " ++ "B")
          = none →
        st₂.calls = ({ cache := [], calls := 0 } : GeoState).calls + 1 ∧
        cacheFind st₂.cache ("A" ++ ", " ++ "B") = some v ∧
        (notFoundOracle ("A" ++ ", " ++ "B" ++ ", Russia")
            ({ cache := [], calls := 0 } : GeoState).calls = GeoResp.notFound
          → v = (none, none))) ∧
      get_coordinates notFoundOracle (0 + 1) st₂ "A" "B" = some (v, st₂) :=
  geo_cache_reuse notFoundOracle (by intro q k; simp [notFoundOracle]) 0
    { cache := [], calls := 0 } "A" "B"
